import Mathlib

/-!
Verification of the header-only logging utility `logger.hpp`.

The embedding follows the source closely:

* `LogLevel` values are modelled as `Int` (a C++ enum has an integral
  underlying type, and the spec talks about values outside the five
  declared enumerators); the enumerators `DEBUG .. FATAL` are the
  constants `0 .. 4` as declared.
* `logLevelToString` and `logLevelColor` mirror the two `switch`
  statements, including the `default` branches.
* `extractFileName` mirrors `find_last_of("/\\")` followed by
  `substr(pos + 1)`.
* `LogStream` carries the fields of the C++ class; the
  `ostringstream` buffer is a `String`.  The constructor is
  parametrised by the already-rendered timestamp (the result of
  `getCurrentTime()`), since wall-clock time is external input.
* Every operation returns, alongside the new state, the list of writes
  it performs on the standard error stream; the constructor and
  `operator<<` write nothing, the destructor writes the accumulated
  buffer followed by the reset sequence and a newline (`std::endl`).
-/

namespace Logger

/-- ANSI reset sequence, `"\033[0m"` in the source. -/
def COLOR_RESET : String := "\u001B[0m"

/-- ANSI white text, `"\033[37m"` in the source. -/
def COLOR_DEBUG : String := "\u001B[37m"

/-- ANSI blue text, `"\033[34m"` in the source. -/
def COLOR_INFO : String := "\u001B[34m"

/-- ANSI yellow text, `"\033[33m"` in the source. -/
def COLOR_WARN : String := "\u001B[33m"

/-- ANSI red text, `"\033[31m"` in the source. -/
def COLOR_ERROR : String := "\u001B[31m"

/-- ANSI red background with white text, `"\033[41;37m"` in the source. -/
def COLOR_FATAL : String := "\u001B[41;37m"

/-- Enumerator `DEBUG` of `enum LogLevel` (value 0). -/
def DEBUG : Int := 0

/-- Enumerator `INFO` of `enum LogLevel` (value 1). -/
def INFO : Int := 1

/-- Enumerator `WARN` of `enum LogLevel` (value 2). -/
def WARN : Int := 2

/-- Enumerator `ERROR` of `enum LogLevel` (value 3). -/
def ERROR : Int := 3

/-- Enumerator `FATAL` of `enum LogLevel` (value 4). -/
def FATAL : Int := 4

/-- Severity label, mirroring the `switch` in `LogStream::logLevelToString`. -/
def logLevelToString (level : Int) : String :=
  if level = DEBUG then "DEBUG"
  else if level = INFO then "INFO"
  else if level = WARN then "WARN"
  else if level = ERROR then "ERROR"
  else if level = FATAL then "FATAL"
  else "UNKNOWN"

/-- Severity colour, mirroring the `switch` in `LogStream::logLevelColor`. -/
def logLevelColor (level : Int) : String :=
  if level = DEBUG then COLOR_DEBUG
  else if level = INFO then COLOR_INFO
  else if level = WARN then COLOR_WARN
  else if level = ERROR then COLOR_ERROR
  else if level = FATAL then COLOR_FATAL
  else COLOR_RESET

/-- Test whether a character is one of the path separators searched for by
`filePath.find_last_of("/\\")`. -/
def isPathSep (c : Char) : Bool := c = '/' || c = '\\'

/-- Index of the last path separator in the remaining characters, if any:
`i` is the index of the head of the list, `acc` the last separator index
seen so far.  This models `std::string::find_last_of("/\\")`. -/
def findLastOfAux : List Char → Nat → Option Nat → Option Nat
  | [], _, acc => acc
  | c :: rest, i, acc =>
      findLastOfAux rest (i + 1) (if isPathSep c then some i else acc)

/-- Model of `filePath.find_last_of("/\\")`: `none` plays the role of
`std::string::npos`. -/
def findLastPathSep (s : String) : Option Nat := findLastOfAux s.data 0 none

/-- Model of `extractFileName`: return the path unchanged when it has no
separator, otherwise `substr(pos + 1)`. -/
def extractFileName (filePath : String) : String :=
  match findLastPathSep filePath with
  | none => filePath
  | some pos => String.mk (filePath.data.drop (pos + 1))

/-- Location prefix written by the constructor:
`extractFileName(file) << ":" << func << "():" << line`. -/
def location (file func : String) (line : Int) : String :=
  extractFileName file ++ ":" ++ func ++ "():" ++ toString line

/-- State of the C++ `LogStream` object: the captured constructor
arguments and the `ostringstream` buffer. -/
structure LogStream where
  level : Int
  file : String
  func : String
  line : Int
  stream : String
  deriving Repr, DecidableEq

/-- The `LogStream` constructor.  `now` is the rendered result of
`getCurrentTime()`.  The second component is the list of writes to the
standard error stream performed during construction (none). -/
def LogStream.construct (now : String) (level : Int) (file func : String)
    (line : Int) : LogStream × List String :=
  ({ level := level, file := file, func := func, line := line,
     stream :=
       now ++ " "
       ++ location file func line ++ " "
       ++ logLevelToString level ++ " | "
       ++ logLevelColor level }, [])

/-- One `operator<<` on the object returned by `stream()`: appends the
rendered fragment to the buffer and performs no write to standard error. -/
def LogStream.append (s : LogStream) (frag : String) : LogStream × List String :=
  ({ s with stream := s.stream ++ frag }, [])

/-- The `LogStream` destructor: appends `COLOR_RESET` and the newline of
`std::endl`, then performs the single write of the whole buffer to the
standard error stream. -/
def LogStream.destruct (s : LogStream) : List String :=
  [s.stream ++ COLOR_RESET ++ "\n"]

/-- Run a chain of `<<` appends, collecting the writes each one performs. -/
def runAppends : LogStream → List String → LogStream × List String
  | s, [] => (s, [])
  | s, f :: fs =>
      let p := s.append f
      let q := runAppends p.1 fs
      (q.1, p.2 ++ q.2)

/-- Concatenation of the rendered message fragments, in append order. -/
def concatAll : List String → String
  | [] => ""
  | f :: fs => f ++ concatAll fs

/-- One full logging statement, `LOG(level) << f1 << f2 << ...;`:
construction, the chain of appends, then destruction at the end of the
statement.  The result is the full trace of writes to standard error, in
the order they happen. -/
def logStatement (now : String) (level : Int) (file func : String)
    (line : Int) (frags : List String) : List String :=
  let c := LogStream.construct now level file func line
  let r := runAppends c.1 frags
  c.2 ++ r.2 ++ r.1.destruct

end Logger

namespace Logger

/-- `find_last_of` over a concatenation: search the right part with the
index offset, using the result of searching the left part as fallback. -/
theorem findLastOfAux_append (l1 l2 : List Char) : ∀ (i : Nat) (acc : Option Nat),
    findLastOfAux (l1 ++ l2) i acc = findLastOfAux l2 (i + l1.length) (findLastOfAux l1 i acc) := by
  induction l1 with
  | nil => intro i acc; simp [findLastOfAux]
  | cons c rest ih =>
      intro i acc
      show findLastOfAux (rest ++ l2) (i + 1) (if isPathSep c then some i else acc) =
        findLastOfAux l2 (i + (rest.length + 1))
          (findLastOfAux rest (i + 1) (if isPathSep c then some i else acc))
      rw [ih]
      congr 1
      omega

/-- Scanning characters with no path separator leaves the accumulator alone. -/
theorem findLastOfAux_no_sep (l : List Char) : ∀ (i : Nat) (acc : Option Nat),
    l.all (fun c => !(isPathSep c)) = true → findLastOfAux l i acc = acc := by
  induction l with
  | nil => intro i acc _; rfl
  | cons c rest ih =>
      intro i acc h
      simp only [List.all_cons, Bool.and_eq_true, Bool.not_eq_true'] at h
      simp [findLastOfAux, h.1, ih _ _ (by simpa using h.2)]

/-- Associativity of string concatenation. -/
theorem str_append_assoc (a b c : String) : a ++ b ++ c = a ++ (b ++ c) := by
  apply String.ext
  simp [String.data_append]

/-- Appending the empty string is the identity. -/
theorem str_append_empty (a : String) : a ++ "" = a := by
  apply String.ext
  simp [String.data_append]

/-- A chain of `<<` appends concatenates the rendered fragments, in order,
onto the buffer, performs no write to standard error, and changes no other
field of the object. -/
theorem runAppends_eq (frags : List String) : ∀ (s : LogStream),
    runAppends s frags = ({ s with stream := s.stream ++ concatAll frags }, []) := by
  induction frags with
  | nil => intro s; simp [runAppends, concatAll, str_append_empty]
  | cons f fs ih =>
      intro s
      simp [runAppends, LogStream.append, concatAll, ih, str_append_assoc]

/-- When the path is a prefix, then a separator, then separator-free
characters, `extractFileName` returns exactly the characters after the
last separator. -/
theorem extract_after_last_sep (pre : List Char) (c : Char) (post : List Char)
    (hc : isPathSep c = true) (hpost : post.all (fun x => !(isPathSep x)) = true) :
    extractFileName (String.mk (pre ++ c :: post)) = String.mk post := by
  have h1 : findLastPathSep (String.mk (pre ++ c :: post)) = some pre.length := by
    show findLastOfAux (pre ++ c :: post) 0 none = some pre.length
    rw [findLastOfAux_append]
    show findLastOfAux post (0 + pre.length + 1)
      (if isPathSep c then some (0 + pre.length) else findLastOfAux pre 0 none) = some pre.length
    rw [hc, if_pos rfl, findLastOfAux_no_sep _ _ _ hpost]
    simp
  simp only [extractFileName, h1]
  congr 1
  have h2 : pre ++ c :: post = (pre ++ [c]) ++ post := by simp
  rw [h2, show pre.length + 1 = (pre ++ [c]).length by simp]
  exact List.drop_left _ _

/-- A path with no separator is returned unchanged. -/
theorem extract_no_sep (s : String) (h : s.data.all (fun x => !(isPathSep x)) = true) :
    extractFileName s = s := by
  simp only [extractFileName, findLastPathSep, findLastOfAux_no_sep _ _ _ h]

/-- The full trace of a logging statement is one write with the exact
shape of the emitted line. -/
theorem logStatement_eq (now : String) (level : Int) (file func : String) (line : Int)
    (frags : List String) :
    logStatement now level file func line frags =
      [now ++ " " ++ location file func line ++ " " ++ logLevelToString level ++ " | "
        ++ logLevelColor level ++ concatAll frags ++ COLOR_RESET ++ "\n"] := by
  simp only [logStatement, runAppends_eq, LogStream.construct, LogStream.destruct]
  rfl

end Logger

namespace Logger

/-- C1: for every severity level and message, the line emitted to standard
error at destruction has the exact shape: timestamp, space, location,
space, severity label, the literal separator `" | "`, the severity's ANSI
colour sequence, the appended message text, the reset sequence `"\033[0m"`,
then a newline — the reset and newline are appended only at destruction,
and the destructor's write is the only write of the whole statement
(construction and every append write nothing). -/
theorem emitted_line_shape (now : String) (level : Int) (file func : String)
    (line : Int) (frags : List String) :
    (LogStream.construct now level file func line).2 = [] ∧
    (runAppends (LogStream.construct now level file func line).1 frags).2 = [] ∧
    logStatement now level file func line frags =
      [now ++ " " ++ location file func line ++ " " ++ logLevelToString level ++ " | "
        ++ logLevelColor level ++ concatAll frags ++ COLOR_RESET ++ "\n"] := by
  refine ⟨rfl, ?_, logStatement_eq now level file func line frags⟩
  rw [runAppends_eq]

/-- C2: for each of the five defined severity levels, the rendered label is
exactly the literal string of the fixed table. -/
theorem severity_labels :
    logLevelToString DEBUG = "DEBUG" ∧ logLevelToString INFO = "INFO" ∧
    logLevelToString WARN = "WARN" ∧ logLevelToString ERROR = "ERROR" ∧
    logLevelToString FATAL = "FATAL" := by
  decide

/-- C3: for each of the five defined severity levels, the colour-activation
sequence chosen by the fixed lookup is exactly the one of the fixed table. -/
theorem severity_colors :
    logLevelColor DEBUG = "\u001B[37m" ∧ logLevelColor INFO = "\u001B[34m" ∧
    logLevelColor WARN = "\u001B[33m" ∧ logLevelColor ERROR = "\u001B[31m" ∧
    logLevelColor FATAL = "\u001B[41;37m" := by
  decide

/-- C4: for every severity value outside the five defined enumerators, the
rendered label is `"UNKNOWN"`, the chosen colour is the reset sequence, and
the rest of the output format is unchanged. -/
theorem unknown_severity (level : Int)
    (h : ¬(level = DEBUG ∨ level = INFO ∨ level = WARN ∨ level = ERROR ∨ level = FATAL)) :
    logLevelToString level = "UNKNOWN" ∧ logLevelColor level = COLOR_RESET ∧
    ∀ (now file func : String) (line : Int) (frags : List String),
      logStatement now level file func line frags =
        [now ++ " " ++ location file func line ++ " " ++ "UNKNOWN" ++ " | "
          ++ COLOR_RESET ++ concatAll frags ++ COLOR_RESET ++ "\n"] := by
  push_neg at h
  obtain ⟨h1, h2, h3, h4, h5⟩ := h
  have hs : logLevelToString level = "UNKNOWN" := by
    simp [logLevelToString, h1, h2, h3, h4, h5]
  have hcol : logLevelColor level = COLOR_RESET := by
    simp [logLevelColor, h1, h2, h3, h4, h5]
  refine ⟨hs, hcol, ?_⟩
  intro now file func line frags
  rw [logStatement_eq, hs, hcol]

/-- Witness for C4 at the out-of-range severity value 99. -/
theorem unknown_severity_witness :
    logLevelToString 99 = "UNKNOWN" ∧ logLevelColor 99 = COLOR_RESET :=
  ⟨(unknown_severity 99 (by decide)).1, (unknown_severity 99 (by decide)).2.1⟩

/-- C5: basename extraction returns the substring after the last path
separator (`/` or `\`), returns the path unchanged when it contains no
separator, and in particular maps `"/a/b/c.ext"` to `"c.ext"` and
`"file.ext"` to itself. -/
theorem basename_extraction :
    (∀ (pre : List Char) (c : Char) (post : List Char), isPathSep c = true →
        post.all (fun x => !(isPathSep x)) = true →
        extractFileName (String.mk (pre ++ c :: post)) = String.mk post) ∧
    (∀ s : String, s.data.all (fun x => !(isPathSep x)) = true → extractFileName s = s) ∧
    extractFileName "/a/b/c.ext" = "c.ext" ∧ extractFileName "file.ext" = "file.ext" :=
  ⟨extract_after_last_sep, extract_no_sep, by decide, by decide⟩

/-- Witness for C5 on the concrete paths `"a/b"` and `"file.ext"`. -/
theorem basename_extraction_witness :
    extractFileName (String.mk (['a'] ++ '/' :: ['b'])) = String.mk ['b'] ∧
    extractFileName "file.ext" = "file.ext" :=
  ⟨basename_extraction.1 ['a'] '/' ['b'] (by decide) (by decide),
   basename_extraction.2.2.2⟩

/-- Counterexample to C6: the constructor does not place the `" | "`
separator between the location prefix and the severity label — at a
concrete input, the buffer differs from the shape claimed. -/
theorem header_sep_order_counterexample :
    (LogStream.construct "T" DEBUG "f" "g" 1).1.stream ≠
      "T" ++ " " ++ location "f" "g" 1 ++ " | " ++ logLevelToString DEBUG
        ++ logLevelColor DEBUG := by
  decide

/-- C6 (amended): at construction the header is concatenated in the order
timestamp, space, location prefix, space, severity label, the separator
`" | "`, then the chosen colour-activation sequence — the separator sits
between the severity label and the colour sequence. -/
theorem header_order (now : String) (level : Int) (file func : String) (line : Int) :
    (LogStream.construct now level file func line).1.stream =
      now ++ " " ++ location file func line ++ " " ++ logLevelToString level ++ " | "
        ++ logLevelColor level := rfl

/-- C7: appends accumulate exactly the given fragments, concatenated in
append order after the header, with no fragment lost or reordered, touch no
other field, and perform no write before destruction. -/
theorem append_accumulation :
    (∀ (s : LogStream) (frags : List String),
        (runAppends s frags).1 = { s with stream := s.stream ++ concatAll frags } ∧
        (runAppends s frags).2 = []) ∧
    ∀ (now : String) (level : Int) (file func : String) (line : Int)
      (frags : List String),
      logStatement now level file func line frags =
        [(LogStream.construct now level file func line).1.stream ++ concatAll frags
          ++ COLOR_RESET ++ "\n"] := by
  constructor
  · intro s frags
    rw [runAppends_eq]
    exact ⟨rfl, rfl⟩
  · intro now level file func line frags
    rw [logStatement_eq]
    rfl

/-- C8: for severity `ERROR`, file `"/src/net/conn.ext"`, line 57, function
`"send"` and the fragments `"timeout after "`, `3`, `" retries"`, the
output line contains, in order: the timestamp, `conn.ext:send():57`, the
literal `ERROR`, the red escape, the message text, the reset escape, then a
newline. -/
theorem error_scenario (ts : String) :
    logStatement ts ERROR "/src/net/conn.ext" "send" 57
        ["timeout after ", "3", " retries"] =
      [ts ++ " " ++ "conn.ext:send():57" ++ " " ++ "ERROR" ++ " | " ++ "\u001B[31m"
        ++ "timeout after 3 retries" ++ "\u001B[0m" ++ "\n"] := by
  rw [logStatement_eq]
  congr 1

/-- C9: formatting is deterministic — two runs with identical inputs and an
identical rendered clock value produce byte-identical output. -/
theorem deterministic_formatting (now now2 : String) (level level2 : Int)
    (file file2 func func2 : String) (line line2 : Int) (frags frags2 : List String)
    (h1 : now = now2) (h2 : level = level2) (h3 : file = file2) (h4 : func = func2)
    (h5 : line = line2) (h6 : frags = frags2) :
    logStatement now level file func line frags =
      logStatement now2 level2 file2 func2 line2 frags2 := by
  subst h1; subst h2; subst h3; subst h4; subst h5; subst h6; rfl

/-- Witness for C9 at one concrete pair of identical statements. -/
theorem deterministic_formatting_witness :
    logStatement "T" INFO "a/b.c" "m" 3 ["x=", "42"] =
      logStatement "T" INFO "a/b.c" "m" 3 ["x=", "42"] :=
  deterministic_formatting "T" "T" INFO INFO "a/b.c" "a/b.c" "m" "m" 3 3
    ["x=", "42"] ["x=", "42"] rfl rfl rfl rfl rfl rfl

/-- C10: for every path ending in a path separator, basename extraction
returns the empty string, so the printed location begins directly with
`:<function>():<line>`. -/
theorem trailing_sep_basename (t : List Char) (c : Char) (func : String) (line : Int)
    (hc : isPathSep c = true) :
    extractFileName (String.mk (t ++ [c])) = "" ∧
    location (String.mk (t ++ [c])) func line = ":" ++ func ++ "():" ++ toString line := by
  have h1 : extractFileName (String.mk (t ++ [c])) = "" := by
    have h2 := extract_after_last_sep t c [] hc rfl
    simpa using h2
  refine ⟨h1, ?_⟩
  show extractFileName (String.mk (t ++ [c])) ++ ":" ++ func ++ "():" ++ toString line =
    ":" ++ func ++ "():" ++ toString line
  rw [h1]
  apply String.ext
  simp [String.data_append]

/-- Witness for C10 on the concrete path `"a/"`. -/
theorem trailing_sep_basename_witness :
    extractFileName (String.mk (['a'] ++ ['/'])) = "" ∧
    location (String.mk (['a'] ++ ['/'])) "g" 2 = ":" ++ "g" ++ "():" ++ toString (2 : Int) :=
  trailing_sep_basename ['a'] '/' "g" 2 (by decide)

end Logger
